import Mathlib

/-!
Verification of the obsidian-drawio plugin (src/src/main.ts) against its
natural-language specification. The TypeScript source is shallowly embedded:
the vault is an association list from file paths to contents, a diagram pane
(class DrawioView) is a record of its bound file, dirty flag and last-save
timestamp, and the postMessage handler becomes a pure transition function
returning the new pane state, the new vault, the commands posted to the
iframe and the user notices shown.
-/

namespace Drawio

/-- The theme field of DrawioPluginSettings: one of system, light, dark. -/
inductive Theme where
  | system
  | light
  | dark
deriving DecidableEq, Repr

/-- interface DrawioPluginSettings (main.ts lines 30-33). -/
structure DrawioPluginSettings where
  theme : Theme
  defaultFolder : String
deriving DecidableEq, Repr

/-- const DEFAULT_SETTINGS (main.ts lines 35-38). -/
def DEFAULT_SETTINGS : DrawioPluginSettings :=
  { theme := Theme.system, defaultFolder := "Diagrams" }

/-- The persisted data returned by loadData(): a possibly partial settings
object, each field possibly absent. -/
structure StoredData where
  theme : Option Theme
  defaultFolder : Option String
deriving DecidableEq, Repr

/-- loadSettings (main.ts lines 168-170):
Object.assign(\x7b\x7d, DEFAULT_SETTINGS, await this.loadData()).
Object.assign copies defined fields of the stored object over the defaults;
a null/absent stored object contributes nothing. -/
def loadSettings : Option StoredData → DrawioPluginSettings
  | none => DEFAULT_SETTINGS
  | some d =>
      { theme := d.theme.getD DEFAULT_SETTINGS.theme,
        defaultFolder := d.defaultFolder.getD DEFAULT_SETTINGS.defaultFolder }

/-- saveData as called by saveSettings (main.ts line 173): persists the full
settings object, so both fields are stored as defined. -/
def saveData (s : DrawioPluginSettings) : StoredData :=
  { theme := some s.theme, defaultFolder := some s.defaultFolder }

/-- The vault: file paths mapped to file contents. -/
abbrev Vault := List (String × String)

/-- vault.getAbstractFileByPath followed by vault.read: the content bound to
a path, or none when no file with that path exists. -/
def vaultRead (path : String) : Vault → Option String
  | [] => none
  | (k, c) :: rest => if k = path then some c else vaultRead path rest

/-- vault.modify(file, xml): overwrite the content stored at the file's
path, leaving every other file unchanged. -/
def vaultModify (v : Vault) (path xml : String) : Vault :=
  v.map (fun e => if e.1 = path then (path, xml) else e)

/-- Per-pane state of DrawioView (main.ts lines 262-267): the bound file
path (null before setState binds one), the dirty flag and the timestamp of
the last notified save. -/
structure PaneState where
  file : Option String
  hasUnsavedChanges : Bool
  lastSaveTime : Nat
deriving DecidableEq, Repr

/-- Outbound commands posted to the Draw.io iframe, keyed by `action`. -/
inductive OutCmd where
  | load (xml : String) (autosave : Nat)
  | blank
  | save
  | theme (value : String)
deriving DecidableEq, Repr

/-- Inbound messages from the editor after JSON.parse, keyed by `event`.
`other` stands for any event value the switch statement has no case for. -/
inductive InMsg where
  | init
  | save (xml : String)
  | exit
  | modified
  | other
deriving DecidableEq, Repr

/-- The data field of a MessageEvent: either text JSON.parse rejects, or a
parsed message. -/
inductive EventData where
  | malformed
  | parsed (m : InMsg)
deriving DecidableEq, Repr

/-- The trusted embedded-editor origin checked at main.ts line 335. -/
def trustedOrigin : String := "https://embed.diagrams.net"

/-- The outcome of one handleMessage call: the pane state and vault after
it, the commands posted to the iframe and the notices shown to the user. -/
structure HandleResult where
  state : PaneState
  vault : Vault
  posted : List OutCmd
  notices : List String
deriving DecidableEq, Repr

/-- saveDiagram (main.ts lines 409-422): return early when no file is
bound; write xml to the bound path only when it resolves to a file. -/
def saveDiagram (s : PaneState) (v : Vault) (xml : String) : Vault :=
  match s.file with
  | none => v
  | some path =>
      if (vaultRead path v).isSome then vaultModify v path xml else v

/-- loadDiagram (main.ts lines 381-404): return early when no file is
bound; when the bound path resolves to a file, read it and post a load
command when the content is truthy (non-empty), else a blank command. -/
def loadDiagram (s : PaneState) (v : Vault) : HandleResult :=
  match s.file with
  | none => ⟨s, v, [], []⟩
  | some path =>
      match vaultRead path v with
      | none => ⟨s, v, [], []⟩
      | some content =>
          if content ≠ "" then ⟨s, v, [OutCmd.load content 1], []⟩
          else ⟨s, v, [OutCmd.blank], []⟩

/-- handleMessage (main.ts lines 334-375). Messages from any other origin
return before the try block. A JSON.parse failure lands in the catch block
and shows an error notice. init delegates to loadDiagram; save writes the
file, clears the dirty flag and notifies unless within 2000 ms of the last
notified save; exit posts a save command when dirty and the user confirms;
modified sets the dirty flag. `now` is Date.now() at the save case,
`confirmAnswer` the result of confirm() at the exit case. -/
def handleMessage (origin : String) (data : EventData) (now : Nat)
    (confirmAnswer : Bool) (s : PaneState) (v : Vault) : HandleResult :=
  if origin ≠ trustedOrigin then ⟨s, v, [], []⟩
  else
    match data with
    | EventData.malformed => ⟨s, v, [], ["Error handling Draw.io operation"]⟩
    | EventData.parsed m =>
        match m with
        | InMsg.init => loadDiagram s v
        | InMsg.save xml =>
            let v1 := saveDiagram s v xml
            let s1 := { s with hasUnsavedChanges := false }
            if now - s1.lastSaveTime > 2000 then
              ⟨{ s1 with lastSaveTime := now }, v1, [], ["Diagram saved"]⟩
            else ⟨s1, v1, [], []⟩
        | InMsg.exit =>
            if s.hasUnsavedChanges then
              if confirmAnswer then ⟨s, v, [OutCmd.save], []⟩
              else ⟨s, v, [], []⟩
            else ⟨s, v, [], []⟩
        | InMsg.modified => ⟨{ s with hasUnsavedChanges := true }, v, [], []⟩
        | InMsg.other => ⟨s, v, [], []⟩

/-- EMPTY_DIAGRAM (main.ts lines 188-198): the fixed template written into
every newly created diagram file. -/
def EMPTY_DIAGRAM : String :=
  "<?xml version=\"1.0\" encoding=\"UTF-8\"?>\n<mxfile host=\"Electron\" modified=\"2024-12-07T12:00:00.000Z\" agent=\"Obsidian Draw.io\" version=\"21.1.2\">\n  <diagram id=\"default-diagram\" name=\"Page-1\">\n    <mxGraphModel dx=\"1422\" dy=\"794\" grid=\"1\" gridSize=\"10\" guides=\"1\" tooltips=\"1\" connect=\"1\" arrows=\"1\" fold=\"1\" page=\"0\" pageScale=\"1\" pageWidth=\"850\" pageHeight=\"1100\">\n      <root>\n        <mxCell id=\"0\"/>\n        <mxCell id=\"1\" parent=\"0\"/>\n      </root>\n    </mxGraphModel>\n  </diagram>\n</mxfile>"

/-- The outcome of ensureDefaultFolderExists: the returned path, whether the
folder was created, and the notices shown. -/
structure EnsureResult where
  path : String
  createdFolder : Bool
  notices : List String
deriving DecidableEq, Repr

/-- ensureDefaultFolderExists (main.ts lines 122-143): an empty configured
folder yields the empty path; an existing folder is returned as is; a
missing folder is created (with a notice) when createFolder succeeds, and a
creation failure is caught, noticed and yields the empty path. -/
def ensureDefaultFolderExists (defaultFolder : String) (folderExists : Bool)
    (createFolderOk : Bool) : EnsureResult :=
  if defaultFolder = "" then ⟨"", false, []⟩
  else if folderExists then ⟨defaultFolder, false, []⟩
  else if createFolderOk then
    ⟨defaultFolder, true, ["Created default diagrams folder: " ++ defaultFolder]⟩
  else ⟨"", false, ["Error creating default folder"]⟩

/-- The environment one createNewDiagram call observes: its optional folder
argument, the active markdown document's parent folder path when there is
one, the file explorer's open folder path when there is one, the configured
default folder and whether it exists in the vault, and whether the three
fallible host calls (createFolder, vault.create, getLeaf) succeed. `now` is
Date.now() for the filename. -/
structure CreateEnv where
  targetFolderPath : Option String
  activeMarkdownParent : Option String
  explorerOpenFolder : Option String
  defaultFolder : String
  defaultFolderExists : Bool
  createFolderOk : Bool
  createFileOk : Bool
  leafOk : Bool
  now : Nat
deriving DecidableEq, Repr

/-- JavaScript truthiness of an optional string: undefined and the empty
string are falsy. -/
def jsTruthy : Option String → Bool
  | none => false
  | some s => s ≠ ""

/-- Folder resolution inside createNewDiagram (main.ts lines 206-230):
a truthy folder argument wins; otherwise the active markdown document's
parent, else the file explorer's open folder; when the resolved path is
still empty, fall back to ensureDefaultFolderExists. -/
def resolveFolderPath (env : CreateEnv) : EnsureResult :=
  if jsTruthy env.targetFolderPath then ⟨env.targetFolderPath.getD "", false, []⟩
  else
    let fp0 :=
      match env.activeMarkdownParent with
      | some p => p
      | none =>
          match env.explorerOpenFolder with
          | some f => f
          | none => ""
    if fp0 = "" then
      ensureDefaultFolderExists env.defaultFolder env.defaultFolderExists
        env.createFolderOk
    else ⟨fp0, false, []⟩

/-- The filename synthesized at main.ts line 232. -/
def mkFileName (folderPath : String) (now : Nat) : String :=
  (if folderPath ≠ "" then folderPath ++ "/" else "") ++ "diagram "
    ++ toString now ++ ".drawio"

/-- The outcome of createNewDiagram: the created file (path and content)
when vault.create ran, the notices shown, and whether the call threw. -/
structure CreateResult where
  createdFile : Option (String × String)
  notices : List String
  threw : Bool
deriving DecidableEq, Repr

/-- createNewDiagram (main.ts lines 204-254): resolve the folder, build the
timestamped filename, create the file with the EMPTY_DIAGRAM template, open
a leaf on it. A vault.create or leaf failure is caught by the surrounding
try/catch, which logs and shows an error notice instead of rethrowing. -/
def createNewDiagram (env : CreateEnv) : CreateResult :=
  let er := resolveFolderPath env
  let fileName := mkFileName er.path env.now
  if !env.createFileOk then
    ⟨none, er.notices ++ ["Error creating new diagram"], false⟩
  else if !env.leafOk then
    ⟨some (fileName, EMPTY_DIAGRAM),
      er.notices ++ ["Error creating new diagram"], false⟩
  else
    ⟨some (fileName, EMPTY_DIAGRAM), er.notices ++ ["New diagram created"], false⟩

/-! ## Helper lemmas -/

lemma vaultRead_vaultModify_self (path xml : String) :
    ∀ v : Vault, (vaultRead path v).isSome →
      vaultRead path (vaultModify v path xml) = some xml
  | [] => by simp [vaultRead]
  | (k, c) :: rest => by
      intro h
      by_cases hk : k = path
      · subst hk
        simp only [vaultModify, List.map_cons]
        simp [vaultRead]
      · have hrest : (vaultRead path rest).isSome := by
          simpa [vaultRead, hk] using h
        simp only [vaultModify, List.map_cons]
        rw [if_neg hk]
        simp only [vaultRead]
        rw [if_neg hk]
        exact vaultRead_vaultModify_self path xml rest hrest

lemma vaultRead_isSome_of_eq {path old : String} {v : Vault}
    (h : vaultRead path v = some old) : (vaultRead path v).isSome := by
  simp [h]

lemma saveDiagram_bound (s : PaneState) (v : Vault) (xml path old : String)
    (hf : s.file = some path) (hv : vaultRead path v = some old) :
    vaultRead path (saveDiagram s v xml) = some xml := by
  have hs : (vaultRead path v).isSome := vaultRead_isSome_of_eq hv
  simp only [saveDiagram, hf, hs, if_true]
  exact vaultRead_vaultModify_self path xml v hs

/-! ## Claims -/

/-- C1: a save message from the trusted origin carrying content xml
overwrites the pane's bound file with xml verbatim and clears the dirty
flag. The pane is bound to a file that exists in the vault (the spec's
invariant for a bound path). -/
theorem save_overwrites_bound_file_and_clears_dirty
    (s : PaneState) (v : Vault) (xml path old : String) (now : Nat)
    (conf : Bool) (hf : s.file = some path) (hv : vaultRead path v = some old) :
    vaultRead path
        (handleMessage trustedOrigin (EventData.parsed (InMsg.save xml)) now
          conf s v).vault = some xml
    ∧ (handleMessage trustedOrigin (EventData.parsed (InMsg.save xml)) now
          conf s v).state.hasUnsavedChanges = false := by
  have hw := saveDiagram_bound s v xml path old hf hv
  by_cases h2 : now - s.lastSaveTime > 2000 <;>
    simp [handleMessage, h2, hw]

/-- C1 witness: a concrete save on a pane bound to file "d.drawio". -/
theorem save_overwrites_bound_file_and_clears_dirty_witness :
    vaultRead "d.drawio"
        (handleMessage trustedOrigin (EventData.parsed (InMsg.save "<new>"))
          5000 false ⟨some "d.drawio", true, 0⟩
          [("d.drawio", "<old>")]).vault = some "<new>"
    ∧ (handleMessage trustedOrigin (EventData.parsed (InMsg.save "<new>"))
          5000 false ⟨some "d.drawio", true, 0⟩
          [("d.drawio", "<old>")]).state.hasUnsavedChanges = false :=
  save_overwrites_bound_file_and_clears_dirty
    ⟨some "d.drawio", true, 0⟩ [("d.drawio", "<old>")] "<new>" "d.drawio"
    "<old>" 5000 false rfl (by decide)

/-- C2: a message whose origin is not the trusted embedded-editor origin
changes nothing: the pane state (dirty flag and last-save timestamp
included) and the vault are unchanged, and no command and no notice is
emitted. -/
theorem untrusted_origin_message_has_no_effect
    (origin : String) (data : EventData) (now : Nat) (conf : Bool)
    (s : PaneState) (v : Vault) (h : origin ≠ trustedOrigin) :
    handleMessage origin data now conf s v = ⟨s, v, [], []⟩ := by
  simp [handleMessage, h]

/-- C2 witness: a save message from an attacker origin is ignored. -/
theorem untrusted_origin_message_has_no_effect_witness :
    handleMessage "https://evil.example"
        (EventData.parsed (InMsg.save "<p/>")) 9000 true
        ⟨some "d.drawio", true, 0⟩ [("d.drawio", "<old>")]
      = ⟨⟨some "d.drawio", true, 0⟩, [("d.drawio", "<old>")], [], []⟩ :=
  untrusted_origin_message_has_no_effect "https://evil.example"
    (EventData.parsed (InMsg.save "<p/>")) 9000 true
    ⟨some "d.drawio", true, 0⟩ [("d.drawio", "<old>")] (by decide)

/-- C3 counterexample: with C the empty string, a save carrying C followed
by an init on a pane bound to an existing file posts a blank command, not a
load command carrying C — the claim fails for C = "". -/
theorem save_then_init_fails_on_empty_content :
    (handleMessage trustedOrigin (EventData.parsed InMsg.init) 0 false
        (handleMessage trustedOrigin (EventData.parsed (InMsg.save "")) 0
          false ⟨some "d.drawio", false, 0⟩ [("d.drawio", "<old>")]).state
        (handleMessage trustedOrigin (EventData.parsed (InMsg.save "")) 0
          false ⟨some "d.drawio", false, 0⟩
          [("d.drawio", "<old>")]).vault).posted = [OutCmd.blank]
    ∧ ([OutCmd.blank] : List OutCmd) ≠ [OutCmd.load "" 1] := by
  constructor
  · rfl
  · decide

/-- C3 amended: for every NON-EMPTY content string C, a save carrying C
followed by an init on the same pane (bound to an existing file, no
intervening change) posts a load command whose xml payload is exactly C.
(For C = "" the init handler sees falsy content and posts blank instead.) -/
theorem save_then_init_posts_saved_content
    (s : PaneState) (v : Vault) (path old C : String) (t1 t2 : Nat)
    (c1 c2 : Bool) (hf : s.file = some path)
    (hv : vaultRead path v = some old) (hC : C ≠ "") :
    (handleMessage trustedOrigin (EventData.parsed InMsg.init) t2 c2
        (handleMessage trustedOrigin (EventData.parsed (InMsg.save C)) t1 c1
          s v).state
        (handleMessage trustedOrigin (EventData.parsed (InMsg.save C)) t1 c1
          s v).vault).posted = [OutCmd.load C 1] := by
  have hw := saveDiagram_bound s v C path old hf hv
  by_cases h2 : t1 - s.lastSaveTime > 2000 <;>
    simp [handleMessage, h2, loadDiagram, hf, hw, hC]

/-- C3 amended witness: saving "<x/>" then init posts load "<x/>". -/
theorem save_then_init_posts_saved_content_witness :
    (handleMessage trustedOrigin (EventData.parsed InMsg.init) 7 true
        (handleMessage trustedOrigin (EventData.parsed (InMsg.save "<x/>"))
          3 false ⟨some "d.drawio", true, 0⟩ [("d.drawio", "<old>")]).state
        (handleMessage trustedOrigin (EventData.parsed (InMsg.save "<x/>"))
          3 false ⟨some "d.drawio", true, 0⟩
          [("d.drawio", "<old>")]).vault).posted = [OutCmd.load "<x/>" 1] :=
  save_then_init_posts_saved_content ⟨some "d.drawio", true, 0⟩
    [("d.drawio", "<old>")] "d.drawio" "<old>" "<x/>" 3 7 false true rfl
    (by decide) (by decide)

/-- C4: on init, a pane bound to an existing file reads its content and
posts a load command carrying it when it is present (non-empty), else a
blank-document command. -/
theorem init_posts_load_or_blank
    (s : PaneState) (v : Vault) (path content : String) (now : Nat)
    (conf : Bool) (hf : s.file = some path)
    (hv : vaultRead path v = some content) :
    (handleMessage trustedOrigin (EventData.parsed InMsg.init) now conf s
        v).posted
      = if content ≠ "" then [OutCmd.load content 1] else [OutCmd.blank] := by
  by_cases hc : content = "" <;> simp [handleMessage, loadDiagram, hf, hv, hc]

/-- C4 witness: init on a file holding "<y/>" posts load "<y/>", and the
conditional evaluates as the non-empty branch. -/
theorem init_posts_load_or_blank_witness :
    (handleMessage trustedOrigin (EventData.parsed InMsg.init) 11 false
        ⟨some "d.drawio", false, 0⟩ [("d.drawio", "<y/>")]).posted
      = if ("<y/>" : String) ≠ "" then [OutCmd.load "<y/>" 1]
        else [OutCmd.blank] :=
  init_posts_load_or_blank ⟨some "d.drawio", false, 0⟩
    [("d.drawio", "<y/>")] "d.drawio" "<y/>" 11 false rfl (by decide)

/-- C6: every save from the trusted origin writes the file, but the
"Diagram saved" notice is shown exactly when more than 2000 ms have passed
since the last notified save; a notified save records its time and a
throttled save leaves the recorded time unchanged, so throttling applies to
every save step of every sequence, while the write happens regardless. -/
theorem save_writes_always_but_notifies_outside_throttle_window
    (s : PaneState) (v : Vault) (xml path old : String) (now : Nat)
    (conf : Bool) (hf : s.file = some path)
    (hv : vaultRead path v = some old) :
    vaultRead path
        (handleMessage trustedOrigin (EventData.parsed (InMsg.save xml)) now
          conf s v).vault = some xml
    ∧ ((handleMessage trustedOrigin (EventData.parsed (InMsg.save xml)) now
          conf s v).notices = ["Diagram saved"] ↔ now - s.lastSaveTime > 2000)
    ∧ (now - s.lastSaveTime > 2000 →
        (handleMessage trustedOrigin (EventData.parsed (InMsg.save xml)) now
          conf s v).state.lastSaveTime = now)
    ∧ (¬ now - s.lastSaveTime > 2000 →
        (handleMessage trustedOrigin (EventData.parsed (InMsg.save xml)) now
            conf s v).notices = []
        ∧ (handleMessage trustedOrigin (EventData.parsed (InMsg.save xml))
            now conf s v).state.lastSaveTime = s.lastSaveTime) := by
  have hw := saveDiagram_bound s v xml path old hf hv
  by_cases h2 : now - s.lastSaveTime > 2000 <;>
    simp [handleMessage, h2, hw]

/-- C6 witness: a save 5000 ms after a save notified at time 0 writes the
file and is notified; the throttle condition holds concretely. -/
theorem save_writes_always_but_notifies_outside_throttle_window_witness :
    vaultRead "d.drawio"
        (handleMessage trustedOrigin (EventData.parsed (InMsg.save "<z/>"))
          5000 false ⟨some "d.drawio", true, 0⟩
          [("d.drawio", "<old>")]).vault = some "<z/>"
    ∧ ((handleMessage trustedOrigin (EventData.parsed (InMsg.save "<z/>"))
          5000 false ⟨some "d.drawio", true, 0⟩
          [("d.drawio", "<old>")]).notices = ["Diagram saved"]
        ↔ 5000 - (0 : Nat) > 2000)
    ∧ (5000 - (0 : Nat) > 2000 →
        (handleMessage trustedOrigin (EventData.parsed (InMsg.save "<z/>"))
          5000 false ⟨some "d.drawio", true, 0⟩
          [("d.drawio", "<old>")]).state.lastSaveTime = 5000)
    ∧ (¬ 5000 - (0 : Nat) > 2000 →
        (handleMessage trustedOrigin (EventData.parsed (InMsg.save "<z/>"))
            5000 false ⟨some "d.drawio", true, 0⟩
            [("d.drawio", "<old>")]).notices = []
        ∧ (handleMessage trustedOrigin (EventData.parsed (InMsg.save "<z/>"))
            5000 false ⟨some "d.drawio", true, 0⟩
            [("d.drawio", "<old>")]).state.lastSaveTime = 0) :=
  save_writes_always_but_notifies_outside_throttle_window
    ⟨some "d.drawio", true, 0⟩ [("d.drawio", "<old>")] "<z/>" "d.drawio"
    "<old>" 5000 false rfl (by decide)

/-- C10: a save message on a pane whose bound file is null, or whose bound
path does not resolve to an existing file, writes nothing (the vault is
unchanged) and yet still clears the dirty flag. -/
theorem save_without_resolvable_file_clears_dirty_without_write
    (s : PaneState) (v : Vault) (xml : String) (now : Nat) (conf : Bool)
    (h : s.file = none
      ∨ ∃ path, s.file = some path ∧ vaultRead path v = none) :
    (handleMessage trustedOrigin (EventData.parsed (InMsg.save xml)) now conf
        s v).vault = v
    ∧ (handleMessage trustedOrigin (EventData.parsed (InMsg.save xml)) now
        conf s v).state.hasUnsavedChanges = false := by
  have hsv : saveDiagram s v xml = v := by
    rcases h with h | ⟨path, hf, hv⟩
    · simp [saveDiagram, h]
    · simp [saveDiagram, hf, hv]
  by_cases h2 : now - s.lastSaveTime > 2000 <;>
    simp [handleMessage, h2, hsv]

/-- C10 witness: a dirty pane with no bound file receives a save; the vault
is untouched and the dirty flag is nonetheless cleared. -/
theorem save_without_resolvable_file_clears_dirty_without_write_witness :
    (handleMessage trustedOrigin (EventData.parsed (InMsg.save "<q/>")) 9000
        true ⟨none, true, 0⟩ [("other.drawio", "<c/>")]).vault
      = [("other.drawio", "<c/>")]
    ∧ (handleMessage trustedOrigin (EventData.parsed (InMsg.save "<q/>"))
        9000 true ⟨none, true, 0⟩
        [("other.drawio", "<c/>")]).state.hasUnsavedChanges = false :=
  save_without_resolvable_file_clears_dirty_without_write
    ⟨none, true, 0⟩ [("other.drawio", "<c/>")] "<q/>" 9000 true (Or.inl rfl)

/-- C7: settings round-trip — persisting any settings object with saveData
and loading it back with loadSettings yields the same theme and
defaultFolder values. -/
theorem settings_roundtrip (s : DrawioPluginSettings) :
    loadSettings (some (saveData s)) = s := by
  cases s
  simp [loadSettings, saveData]

/-- C8: after loadSettings both fields are always defined: absent stored
data yields the hard-coded defaults (theme system, defaultFolder
"Diagrams"), and for any partial stored data each missing field takes its
default while each stored field overrides it. -/
theorem loadSettings_merges_defaults_and_overrides (d : StoredData) :
    loadSettings none = DEFAULT_SETTINGS
    ∧ DEFAULT_SETTINGS.theme = Theme.system
    ∧ DEFAULT_SETTINGS.defaultFolder = "Diagrams"
    ∧ (loadSettings (some d)).theme = d.theme.getD Theme.system
    ∧ (loadSettings (some d)).defaultFolder
        = d.defaultFolder.getD "Diagrams" := by
  refine ⟨rfl, rfl, rfl, ?_, ?_⟩ <;> simp [loadSettings, DEFAULT_SETTINGS]

/-- C9: createNewDiagram never throws — every failure (default-folder
creation, file creation, leaf creation) is caught inside and surfaced as a
user notice: a file- or leaf-creation failure notices "Error creating new
diagram", and a default-folder creation failure (on the path that consults
the default folder) notices "Error creating default folder". -/
theorem createNewDiagram_catches_all_failures (env : CreateEnv) :
    (createNewDiagram env).threw = false
    ∧ (env.createFileOk = false ∨ env.leafOk = false →
        "Error creating new diagram" ∈ (createNewDiagram env).notices)
    ∧ (jsTruthy env.targetFolderPath = false →
        env.activeMarkdownParent = none → env.explorerOpenFolder = none →
        env.defaultFolder ≠ "" → env.defaultFolderExists = false →
        env.createFolderOk = false →
        "Error creating default folder" ∈ (createNewDiagram env).notices) := by
  refine ⟨?_, ?_, ?_⟩
  · cases hc : env.createFileOk <;> cases hl : env.leafOk <;>
      simp [createNewDiagram, hc, hl]
  · intro h
    cases hc : env.createFileOk with
    | false => cases hl : env.leafOk <;> simp [createNewDiagram, hc, hl]
    | true =>
        cases hl : env.leafOk with
        | false => simp [createNewDiagram, hc, hl]
        | true => simp [hc, hl] at h
  · intro h1 h2 h3 h4 h5 h6
    cases hc : env.createFileOk <;> cases hl : env.leafOk <;>
      simp [createNewDiagram, resolveFolderPath, ensureDefaultFolderExists,
        h1, h2, h3, h4, h5, h6, hc, hl]

/-- C9 witness: with a failing default-folder creation and a failing file
creation, createNewDiagram does not throw and shows both error notices. -/
theorem createNewDiagram_catches_all_failures_witness :
    (createNewDiagram ⟨none, none, none, "Diagrams", false, false, false,
        true, 0⟩).threw = false
    ∧ "Error creating new diagram"
        ∈ (createNewDiagram ⟨none, none, none, "Diagrams", false, false,
            false, true, 0⟩).notices
    ∧ "Error creating default folder"
        ∈ (createNewDiagram ⟨none, none, none, "Diagrams", false, false,
            false, true, 0⟩).notices :=
  ⟨(createNewDiagram_catches_all_failures ⟨none, none, none, "Diagrams",
      false, false, false, true, 0⟩).1,
   (createNewDiagram_catches_all_failures ⟨none, none, none, "Diagrams",
      false, false, false, true, 0⟩).2.1 (Or.inl rfl),
   (createNewDiagram_catches_all_failures ⟨none, none, none, "Diagrams",
      false, false, false, true, 0⟩).2.2 rfl rfl rfl (by decide) rfl rfl⟩

/-- C5 counterexample: the claim says the explicit folder argument wins
whenever it is given, but an explicitly given empty-string argument is
falsy in the JavaScript truthiness test at main.ts line 208, so the code
falls through to the active markdown document's parent instead. -/
theorem explicit_empty_folder_argument_is_ignored :
    (resolveFolderPath ⟨some "", some "Notes", none, "Diagrams", true, true,
        true, true, 5⟩).path = "Notes"
    ∧ ("Notes" : String) ≠ "" := by
  constructor
  · rfl
  · decide

/-- C5 amended: createNewDiagram resolves the folder in priority order —
the explicit folder argument when given AND non-empty; else the active
markdown document's parent folder; else the file explorer's open folder;
else the configured default folder via ensureDefaultFolderExists, which
creates it (with a notice) when it does not exist; the new file is named
with the timestamp and written with the fixed EMPTY_DIAGRAM template. -/
theorem createNewDiagram_folder_resolution (env : CreateEnv) :
    (∀ t, env.targetFolderPath = some t → t ≠ "" →
        (resolveFolderPath env).path = t)
    ∧ (jsTruthy env.targetFolderPath = false →
        ∀ p, env.activeMarkdownParent = some p → p ≠ "" →
          (resolveFolderPath env).path = p)
    ∧ (jsTruthy env.targetFolderPath = false →
        env.activeMarkdownParent = none →
        ∀ f, env.explorerOpenFolder = some f → f ≠ "" →
          (resolveFolderPath env).path = f)
    ∧ (jsTruthy env.targetFolderPath = false →
        env.activeMarkdownParent = none → env.explorerOpenFolder = none →
        resolveFolderPath env
          = ensureDefaultFolderExists env.defaultFolder
              env.defaultFolderExists env.createFolderOk)
    ∧ (env.defaultFolder ≠ "" → env.defaultFolderExists = false →
        env.createFolderOk = true →
        ensureDefaultFolderExists env.defaultFolder env.defaultFolderExists
            env.createFolderOk
          = ⟨env.defaultFolder, true,
              ["Created default diagrams folder: " ++ env.defaultFolder]⟩)
    ∧ (env.createFileOk = true →
        (createNewDiagram env).createdFile
          = some (mkFileName (resolveFolderPath env).path env.now,
              EMPTY_DIAGRAM)) := by
  refine ⟨?_, ?_, ?_, ?_, ?_, ?_⟩
  · intro t ht hne
    simp [resolveFolderPath, jsTruthy, ht, hne]
  · intro h0 p hp hpne
    simp [resolveFolderPath, h0, hp, hpne]
  · intro h0 h1 f hfe hfne
    simp [resolveFolderPath, h0, h1, hfe, hfne]
  · intro h0 h1 h2
    simp [resolveFolderPath, h0, h1, h2]
  · intro hd hex hok
    simp [ensureDefaultFolderExists, hd, hex, hok]
  · intro hc
    cases hl : env.leafOk <;> simp [createNewDiagram, hc, hl]

/-- C5 amended witness: a truthy explicit argument wins; with no argument,
no markdown parent and no explorer folder the default folder is used and
created, and the created file carries the timestamped name and the
EMPTY_DIAGRAM template. -/
theorem createNewDiagram_folder_resolution_witness :
    (resolveFolderPath ⟨some "Target", some "Notes", none, "Diagrams", true,
        true, true, true, 1⟩).path = "Target"
    ∧ resolveFolderPath ⟨none, none, none, "Diagrams", false, true, true,
        true, 42⟩ = ensureDefaultFolderExists "Diagrams" false true
    ∧ ensureDefaultFolderExists "Diagrams" false true
        = ⟨"Diagrams", true, ["Created default diagrams folder: "
            ++ "Diagrams"]⟩
    ∧ (createNewDiagram ⟨none, none, none, "Diagrams", false, true, true,
        true, 42⟩).createdFile
        = some (mkFileName (resolveFolderPath ⟨none, none, none, "Diagrams",
            false, true, true, true, 42⟩).path 42, EMPTY_DIAGRAM) :=
  ⟨(createNewDiagram_folder_resolution ⟨some "Target", some "Notes", none,
      "Diagrams", true, true, true, true, 1⟩).1 "Target" rfl (by decide),
   (createNewDiagram_folder_resolution ⟨none, none, none, "Diagrams", false,
      true, true, true, 42⟩).2.2.2.1 rfl rfl rfl,
   (createNewDiagram_folder_resolution ⟨none, none, none, "Diagrams", false,
      true, true, true, 42⟩).2.2.2.2.1 (by decide) rfl rfl,
   (createNewDiagram_folder_resolution ⟨none, none, none, "Diagrams", false,
      true, true, true, 42⟩).2.2.2.2.2 rfl⟩

end Drawio
